import Mathlib

set_option linter.unusedVariables false

/-!
Shallow embedding of the AgenticAI frontend (Next.js wizard).

Each React event handler is embedded as a pure function from the component
state and the outcome of the fetch it issues to the resulting state together
with the list of `alert(...)` dialogs it shows and the number of HTTP
requests it issues.  A fetch outcome is `FetchResult`: the promise rejected,
the response had a non-2xx status (`response.ok` false), or it succeeded and
its JSON body parsed to the given value.  `console.log` / `console.error`
calls are not user-visible dialogs and are not recorded in `alerts`.
-/

namespace AgenticAI

/-- Outcome of one `fetch` call as observed by the handler's `try` block:
the promise rejects, the response has `ok = false` (non-2xx), or the
response is 2xx and its body parses to `body`. -/
inductive FetchResult (α : Type) where
  | reject : FetchResult α
  | httpError : FetchResult α
  | success (body : α) : FetchResult α

/-- A fetch outcome that enters the handler's `catch` branch: a rejection
or a non-2xx response. -/
def FetchResult.isFailure {α : Type} : FetchResult α → Bool
  | .reject => true
  | .httpError => true
  | .success _ => false

/-- Result of running a handler: the new component state, the alert
dialogs shown (in order), and the number of HTTP requests issued. -/
structure Effect (σ : Type) where
  state : σ
  alerts : List String
  fetches : Nat
deriving DecidableEq

/-! ## FileBrowser component (`components/file-browser.tsx`) -/

/-- `FileInfo` from `file-browser.tsx`. -/
structure FileInfo where
  name : String
  path : String
  type : String
  size : Nat
deriving DecidableEq

/-- The `useState` pieces of `FileBrowser`.  `expandedFolders` is a JS
`Set<string>`, used only through membership tests, so it is embedded as a
`Finset String`. -/
structure FileBrowserState where
  files : List FileInfo
  selectedFile : Option String
  fileContent : String
  loading : Bool
  expandedFolders : Finset String
deriving DecidableEq

/-- The initial `useState` values of `FileBrowser`. -/
def initialFileBrowserState : FileBrowserState :=
  { files := []
    selectedFile := none
    fileContent := ""
    loading := true
    expandedFolders := {"root"} }

/-- `loadFileContent` from `file-browser.tsx`: sets `selectedFile` and a
"Loading..." placeholder, fetches the file, stores the content on success
and the inline text "Error loading file content" in the `catch` branch.
No alert is shown on any path. -/
def loadFileContent (s : FileBrowserState) (filePath : String)
    (resp : FetchResult String) : Effect FileBrowserState :=
  let s1 : FileBrowserState :=
    { s with selectedFile := some filePath, fileContent := "Loading..." }
  match resp with
  | .success content =>
      { state := { s1 with fileContent := content }, alerts := [], fetches := 1 }
  | _ =>
      { state := { s1 with fileContent := "Error loading file content" }
        alerts := [], fetches := 1 }

/-- `loadFiles` from `file-browser.tsx`: fetches the project's file list,
stores it, auto-selects the first file (triggering `loadFileContent`) when
the list is non-empty, and in the `catch` branch only logs to the console.
The `finally` branch clears `loading` on every path.  `contentResp` is the
outcome of the nested `loadFileContent` fetch, when that fetch happens. -/
def loadFiles (s : FileBrowserState) (filesResp : FetchResult (List FileInfo))
    (contentResp : FetchResult String) : Effect FileBrowserState :=
  match filesResp with
  | .success data =>
      let s1 : FileBrowserState := { s with files := data }
      match data with
      | [] => { state := { s1 with loading := false }, alerts := [], fetches := 1 }
      | f :: _ =>
          let e := loadFileContent s1 f.path contentResp
          { state := { e.state with loading := false }
            alerts := e.alerts
            fetches := 1 + e.fetches }
  | _ => { state := { s with loading := false }, alerts := [], fetches := 1 }

/-- `toggleFolder` from `file-browser.tsx`: copies the expanded set, then
deletes the folder if present and adds it otherwise. -/
def toggleFolder (expanded : Finset String) (folder : String) : Finset String :=
  if folder ∈ expanded then expanded.erase folder else insert folder expanded

/-- The content pane of `FileBrowser` shows the "Select a file to view its
contents" placeholder exactly when loading is over and no file is selected
(the render first returns the loading card while `loading`, then branches
on `selectedFile`). -/
def rendersPlaceholder (s : FileBrowserState) : Bool :=
  !s.loading && s.selectedFile.isNone

/-! ## Data model of the wizard (`app/page.tsx`) -/

/-- The `type` union of `FieldDefinition`. -/
inductive FieldType where
  | string | number | boolean | date | email | text
deriving DecidableEq

/-- `FieldDefinition` from `app/page.tsx`. -/
structure FieldDefinition where
  id : String
  name : String
  label : String
  type : FieldType
  required : Bool
  defaultValue : Option String
deriving DecidableEq

/-- The `operations` record of `SchemaDefinition`. -/
structure Operations where
  create : Bool
  read : Bool
  update : Bool
  delete : Bool
deriving DecidableEq

/-- `SchemaDefinition` from `app/page.tsx`. -/
structure SchemaDefinition where
  entityName : String
  fields : List FieldDefinition
  operations : Operations
deriving DecidableEq

/-- The `generatedFiles` record of `ValidationResult`; every entry is
optional in the TS type. -/
structure GeneratedFiles where
  sql : Option String
  schema : Option String
  orm : Option String
  api : Option String
  frontend : Option String
  templates : Option String
  requirements : Option String
  readme : Option String
deriving DecidableEq

/-- The optional `codePreview` record of `ValidationResult`. -/
structure CodePreview where
  schema : Option String
  api : Option String
deriving DecidableEq

/-- `ValidationResult` from `app/page.tsx`.  Note that `projectId?` is an
optional field in the TS type. -/
structure ValidationResult where
  success : Bool
  errors : List String
  warnings : List String
  generatedFiles : GeneratedFiles
  projectId : Option String
  codePreview : Option CodePreview
deriving DecidableEq

/-- The wizard step union of `Home`. -/
inductive Step where
  | prompt | mockup | report
deriving DecidableEq

/-- The `useState` pieces of `Home` in `app/page.tsx`. -/
structure HomeState where
  currentStep : Step
  schema : Option SchemaDefinition
  validationResult : Option ValidationResult
  isGenerating : Bool
deriving DecidableEq

/-- The initial `useState` values of `Home`. -/
def initialHomeState : HomeState :=
  { currentStep := .prompt
    schema := none
    validationResult := none
    isGenerating := false }

/-- The `params` argument of `handlePromptSubmit` (entity name and CRUD
operation list forwarded in the request body). -/
structure PromptParams where
  entityName : String
  operations : List String
deriving DecidableEq

/-! ## Home wizard handlers (`app/page.tsx`) -/

/-- The code of `handlePromptSubmit` before its fetch: `setIsGenerating(true)`. -/
def promptSubmitStart (s : HomeState) : HomeState :=
  { s with isGenerating := true }

/-- The code of `handlePromptSubmit` after its fetch: on success store the
generated schema and advance to the mockup step; otherwise alert.  The
`finally` branch clears `isGenerating` on every path. -/
def promptSubmitFinish (s : HomeState) (resp : FetchResult SchemaDefinition) :
    Effect HomeState :=
  match resp with
  | .success generatedSchema =>
      { state := { s with schema := some generatedSchema
                          currentStep := .mockup
                          isGenerating := false }
        alerts := [], fetches := 1 }
  | _ =>
      { state := { s with isGenerating := false }
        alerts := ["Failed to generate schema. Make sure the backend is running on port 8000."]
        fetches := 1 }

/-- `handlePromptSubmit` from `app/page.tsx`. -/
def handlePromptSubmit (s : HomeState) (prompt : String) (params : PromptParams)
    (resp : FetchResult SchemaDefinition) : Effect HomeState :=
  promptSubmitFinish (promptSubmitStart s) resp

/-- `handleSchemaUpdate` from `app/page.tsx`: `setSchema(updatedSchema)`,
with no validation of any kind. -/
def handleSchemaUpdate (s : HomeState) (updatedSchema : SchemaDefinition) :
    HomeState :=
  { s with schema := some updatedSchema }

/-- The code of `handleRegenerate` before its fetch: `setIsGenerating(true)`. -/
def regenerateStart (s : HomeState) : HomeState :=
  { s with isGenerating := true }

/-- The code of `handleRegenerate` after its fetch: on success replace the
schema with the refined one; otherwise alert.  The `finally` branch clears
`isGenerating` on every path. -/
def regenerateFinish (s : HomeState) (resp : FetchResult SchemaDefinition) :
    Effect HomeState :=
  match resp with
  | .success refinedSchema =>
      { state := { s with schema := some refinedSchema, isGenerating := false }
        alerts := [], fetches := 1 }
  | _ =>
      { state := { s with isGenerating := false }
        alerts := ["Failed to refine schema. Make sure the backend is running."]
        fetches := 1 }

/-- `handleRegenerate` from `app/page.tsx`: returns immediately when no
schema is stored (`if (!schema) return`), otherwise runs the refine fetch. -/
def handleRegenerate (s : HomeState) (feedback : String)
    (resp : FetchResult SchemaDefinition) : Effect HomeState :=
  match s.schema with
  | none => { state := s, alerts := [], fetches := 0 }
  | some _ => regenerateFinish (regenerateStart s) resp

/-- The code of `handleConfirm` before its fetch: `setIsGenerating(true)`. -/
def confirmStart (s : HomeState) : HomeState :=
  { s with isGenerating := true }

/-- The code of `handleConfirm` after its fetch: on success store the
validation result and advance to the report step; otherwise alert.  The
`finally` branch clears `isGenerating` on every path. -/
def confirmFinish (s : HomeState) (resp : FetchResult ValidationResult) :
    Effect HomeState :=
  match resp with
  | .success result =>
      { state := { s with validationResult := some result
                          currentStep := .report
                          isGenerating := false }
        alerts := [], fetches := 1 }
  | _ =>
      { state := { s with isGenerating := false }
        alerts := ["Failed to generate application. Make sure the backend is running."]
        fetches := 1 }

/-- `handleConfirm` from `app/page.tsx`: returns immediately when no
schema is stored (`if (!schema) return`), otherwise runs the generate-app
fetch. -/
def handleConfirm (s : HomeState) (resp : FetchResult ValidationResult) :
    Effect HomeState :=
  match s.schema with
  | none => { state := s, alerts := [], fetches := 0 }
  | some _ => confirmFinish (confirmStart s) resp

/-- Modelled from the spec: the `PromptScreen` component
(`components/prompt-screen.tsx`) is not among the available sources; spec
section 8 states that "submitting a prompt with an empty string is rejected
client-side".  The model rejects an empty prompt before any request is
issued and otherwise invokes `handlePromptSubmit`. -/
def promptScreenSubmit (s : HomeState) (prompt : String) (params : PromptParams)
    (resp : FetchResult SchemaDefinition) : Effect HomeState :=
  if prompt = "" then { state := s, alerts := [], fetches := 0 }
  else handlePromptSubmit s prompt params resp

/-! ## Projects page (`app/projects/page.tsx`) -/

/-- `Project` from the projects page.  `created_at` is a unix timestamp in
seconds (`new Date(project.created_at * 1000)` in the render); the unused
`schema: any` field is omitted. -/
structure Project where
  id : String
  entityName : String
  created_at : Nat
  status : String
  path : String
deriving DecidableEq

/-- The `useState` pieces of `ProjectsPage`. -/
structure ProjectsState where
  projects : List Project
  loading : Bool
  selectedProject : Option String
deriving DecidableEq

/-- The initial `useState` values of `ProjectsPage`. -/
def initialProjectsState : ProjectsState :=
  { projects := [], loading := true, selectedProject := none }

/-- The order used by `loadProjects`'s comparator
`(a, b) => b.created_at - a.created_at`: `a` comes no later than `b` when
`a`'s timestamp is at least `b`'s (descending by `created_at`). -/
def projectDescLe (a b : Project) : Prop :=
  b.created_at ≤ a.created_at

instance : DecidableRel projectDescLe := fun a b =>
  Nat.decLe b.created_at a.created_at

instance : IsTotal Project projectDescLe :=
  ⟨fun a b => Nat.le_total b.created_at a.created_at⟩

instance : IsTrans Project projectDescLe :=
  ⟨fun a b c hab hbc => Nat.le_trans hbc hab⟩

/-- The JSON body of `GET /api/projects`: an object with a `projects` array. -/
structure ProjectsResponse where
  projects : List Project
deriving DecidableEq

/-- `loadProjects` from the projects page: fetches the project list, stores
it sorted by descending `created_at` (a stable comparison sort, embedded as
`List.insertionSort`), alerts in the `catch` branch, and clears `loading`
in the `finally` branch on every path. -/
def loadProjects (s : ProjectsState) (resp : FetchResult ProjectsResponse) :
    Effect ProjectsState :=
  match resp with
  | .success data =>
      { state := { s with projects := List.insertionSort projectDescLe data.projects
                          loading := false }
        alerts := [], fetches := 1 }
  | _ =>
      { state := { s with loading := false }
        alerts := ["Failed to load projects. Make sure the backend is running."]
        fetches := 1 }

/-- The `instructions` record of the deploy endpoint's JSON body. -/
structure DeployInstructions where
  railway : String
  render : String
  docker : String
deriving DecidableEq

/-- `handleDownload` from the projects page: fetch the zip, trigger the
browser download on success (out of model), alert on failure. -/
def projectsPageDownload (projectId : String) (resp : FetchResult String) :
    Effect Unit :=
  match resp with
  | .success _ => { state := (), alerts := [], fetches := 1 }
  | _ => { state := (), alerts := ["Failed to download project"], fetches := 1 }

/-- `handleDeploy` from the projects page: alert the deployment
instructions on success, alert a failure message otherwise. -/
def projectsPageDeploy (projectId : String)
    (resp : FetchResult DeployInstructions) : Effect Unit :=
  match resp with
  | .success data =>
      { state := ()
        alerts := ["Deployment Instructions:\n\nRailway:\n" ++ data.railway ++
                   "\n\nRender:\n" ++ data.render ++ "\n\nDocker:\n" ++ data.docker]
        fetches := 1 }
  | _ =>
      { state := (), alerts := ["Failed to get deployment instructions"], fetches := 1 }

/-! ## ValidationReport handlers (`components/validation-report.tsx`) -/

/-- The guard `if (!(result as any).projectId)` of the report's download
and deploy handlers: in JS both `undefined` and the empty string are falsy. -/
def hasProjectId (result : ValidationResult) : Bool :=
  match result.projectId with
  | none => false
  | some pid => pid != ""

/-- `handleDownload` from `validation-report.tsx`: alerts "Project ID not
found" and returns without any request when `projectId` is falsy;
otherwise fetches the zip and alerts on failure. -/
def reportDownload (result : ValidationResult) (resp : FetchResult String) :
    Effect Unit :=
  if hasProjectId result then
    match resp with
    | .success _ => { state := (), alerts := [], fetches := 1 }
    | _ =>
        { state := ()
          alerts := ["Failed to download project. Make sure the backend is running."]
          fetches := 1 }
  else
    { state := (), alerts := ["Project ID not found"], fetches := 0 }

/-- `handleDeploy` from `validation-report.tsx`: alerts "Project ID not
found" and returns without any request when `projectId` is falsy; otherwise
fetches the deployment instructions and alerts them on success, or alerts a
failure message. -/
def reportDeploy (result : ValidationResult)
    (resp : FetchResult DeployInstructions) : Effect Unit :=
  if hasProjectId result then
    match resp with
    | .success data =>
        { state := ()
          alerts := ["Deployment Instructions:\n\nRailway: " ++ data.railway ++
                     "\nRender: " ++ data.render ++ "\nDocker: " ++ data.docker]
          fetches := 1 }
    | _ =>
        { state := ()
          alerts := ["Failed to get deployment instructions. Make sure the backend is running."]
          fetches := 1 }
  else
    { state := (), alerts := ["Project ID not found"], fetches := 0 }

/-! ## Concrete sample values used by witnesses -/

/-- A sample schema, as the backend would return for a book library prompt. -/
def bookSchema : SchemaDefinition :=
  { entityName := "Book"
    fields := [{ id := "f1", name := "title", label := "Title",
                 type := .string, required := true, defaultValue := none }]
    operations := { create := true, read := true, update := true, delete := true } }

/-- A wizard state sitting on the mockup step with `bookSchema` stored. -/
def mockupHomeState : HomeState :=
  { currentStep := .mockup
    schema := some bookSchema
    validationResult := none
    isGenerating := false }

/-- A schema whose field list repeats the field name "title". -/
def dupFieldSchema : SchemaDefinition :=
  { entityName := "Book"
    fields := [{ id := "f1", name := "title", label := "Title",
                 type := .string, required := true, defaultValue := none },
               { id := "f2", name := "title", label := "Title again",
                 type := .text, required := false, defaultValue := none }]
    operations := { create := true, read := true, update := false, delete := false } }

/-- A generate-app response body with every optional file entry absent. -/
def emptyGeneratedFiles : GeneratedFiles :=
  { sql := none, schema := none, orm := none, api := none, frontend := none
    templates := none, requirements := none, readme := none }

/-- A successful `ValidationResult` that carries no `projectId`. -/
def noIdResult : ValidationResult :=
  { success := true, errors := [], warnings := []
    generatedFiles := emptyGeneratedFiles
    projectId := none, codePreview := none }

/-- A successful `ValidationResult` with a `projectId`. -/
def sampleResult : ValidationResult :=
  { success := true, errors := [], warnings := []
    generatedFiles := emptyGeneratedFiles
    projectId := some "proj-123", codePreview := none }

/-! ## Helper lemmas -/

/-- A fetch outcome flagged as a failure is a rejection or a non-2xx
response. -/
theorem failure_cases {α : Type} {r : FetchResult α} (h : r.isFailure = true) :
    r = FetchResult.reject ∨ r = FetchResult.httpError := by
  cases r with
  | reject => exact Or.inl rfl
  | httpError => exact Or.inr rfl
  | success body => simp [FetchResult.isFailure] at h

/-- `loadFileContent` never alerts and issues exactly one request. -/
theorem loadFileContent_no_alert (s : FileBrowserState) (p : String)
    (r : FetchResult String) :
    (loadFileContent s p r).alerts = [] ∧ (loadFileContent s p r).fetches = 1 := by
  cases r <;> exact ⟨rfl, rfl⟩

/-- `loadFiles` never alerts and issues at most two requests (the list
fetch, plus the nested content fetch when the list is non-empty). -/
theorem loadFiles_no_alert (s : FileBrowserState) (fr : FetchResult (List FileInfo))
    (cr : FetchResult String) :
    (loadFiles s fr cr).alerts = [] ∧ (loadFiles s fr cr).fetches ≤ 2 := by
  cases fr with
  | reject => exact ⟨rfl, Nat.le_succ 1⟩
  | httpError => exact ⟨rfl, Nat.le_succ 1⟩
  | success data =>
      cases data with
      | nil => exact ⟨rfl, Nat.le_succ 1⟩
      | cons f fs => cases cr <;> exact ⟨rfl, Nat.le_refl 2⟩

/-! ## Claim theorems -/

/-- C9: `toggleFolder` is an involution on the expanded-folder set; a
single toggle flips exactly the toggled folder's membership and leaves
every other folder's membership unchanged. -/
theorem toggleFolder_toggle (e : Finset String) (f : String) :
    toggleFolder (toggleFolder e f) f = e
    ∧ (f ∈ toggleFolder e f ↔ f ∉ e)
    ∧ ∀ g : String, g ≠ f → (g ∈ toggleFolder e f ↔ g ∈ e) := by
  by_cases h : f ∈ e
  · refine ⟨?_, ?_, ?_⟩
    · simp [toggleFolder, h, Finset.insert_erase]
    · simp [toggleFolder, h]
    · intro g hg
      simp [toggleFolder, h, Finset.mem_erase, hg]
  · refine ⟨?_, ?_, ?_⟩
    · simp [toggleFolder, h, Finset.erase_insert h]
    · simp [toggleFolder, h]
    · intro g hg
      simp [toggleFolder, h, Finset.mem_insert, hg]

/-- Witness for C9 at the initial expanded set and the folder "generated". -/
theorem toggleFolder_toggle_witness :
    toggleFolder (toggleFolder {"root"} "generated") "generated" = {"root"}
    ∧ ("generated" ∈ toggleFolder {"root"} "generated" ↔
        "generated" ∉ ({"root"} : Finset String))
    ∧ ("root" ∈ toggleFolder {"root"} "generated" ↔
        "root" ∈ ({"root"} : Finset String)) :=
  ⟨(toggleFolder_toggle {"root"} "generated").1,
   (toggleFolder_toggle {"root"} "generated").2.1,
   (toggleFolder_toggle {"root"} "generated").2.2 "root" (by decide)⟩

/-- C7: `handleSchemaUpdate` stores any submitted schema unchanged and
unconditionally, with no validation; in particular a schema whose field
list contains duplicate field names is stored as-is. -/
theorem schema_update_unconditional (s : HomeState) (u : SchemaDefinition) :
    handleSchemaUpdate s u = { s with schema := some u }
    ∧ ∃ d : SchemaDefinition,
        ¬ List.Nodup (d.fields.map FieldDefinition.name)
        ∧ handleSchemaUpdate s d = { s with schema := some d } :=
  ⟨rfl, dupFieldSchema, by decide, rfl⟩

/-- C4 (modelled from the spec, `prompt-screen.tsx` being absent from the
sources): submitting an empty prompt is rejected client-side: no request
is issued, no alert is shown, and the wizard state is unchanged, so the
prompt step is not left. -/
theorem empty_prompt_rejected (s : HomeState) (params : PromptParams)
    (resp : FetchResult SchemaDefinition) :
    promptScreenSubmit s "" params resp =
      { state := s, alerts := [], fetches := 0 } := by
  simp [promptScreenSubmit]

/-- C2: when the generate-schema request returns a non-2xx status, an
alert with the failure message is shown, the wizard step stays at
"prompt", and the stored schema is unchanged. -/
theorem generateSchema_httpError_stays_on_prompt (s : HomeState) (prompt : String)
    (params : PromptParams) (h : s.currentStep = Step.prompt) :
    (handlePromptSubmit s prompt params FetchResult.httpError).state.currentStep
        = Step.prompt
    ∧ (handlePromptSubmit s prompt params FetchResult.httpError).state.schema
        = s.schema
    ∧ (handlePromptSubmit s prompt params FetchResult.httpError).alerts =
        ["Failed to generate schema. Make sure the backend is running on port 8000."] :=
  ⟨h, rfl, rfl⟩

/-- Witness for C2 at the initial wizard state. -/
theorem generateSchema_httpError_stays_on_prompt_witness :
    (handlePromptSubmit initialHomeState "a library app" ⟨"Book", ["create", "read"]⟩
        FetchResult.httpError).state.currentStep = Step.prompt
    ∧ (handlePromptSubmit initialHomeState "a library app" ⟨"Book", ["create", "read"]⟩
        FetchResult.httpError).state.schema = initialHomeState.schema
    ∧ (handlePromptSubmit initialHomeState "a library app" ⟨"Book", ["create", "read"]⟩
        FetchResult.httpError).alerts =
        ["Failed to generate schema. Make sure the backend is running on port 8000."] :=
  generateSchema_httpError_stays_on_prompt initialHomeState "a library app"
    ⟨"Book", ["create", "read"]⟩ rfl

/-- C5: a successful refine-schema call replaces the stored schema with
the refined one from the response; a rejected call or a non-2xx response
leaves the stored schema exactly as it was. -/
theorem refine_schema_replaces_or_preserves (s : HomeState)
    (sch refined : SchemaDefinition) (feedback : String)
    (h : s.schema = some sch) :
    (handleRegenerate s feedback (FetchResult.success refined)).state.schema
        = some refined
    ∧ (handleRegenerate s feedback FetchResult.httpError).state.schema = s.schema
    ∧ (handleRegenerate s feedback FetchResult.reject).state.schema = s.schema := by
  simp [handleRegenerate, regenerateFinish, regenerateStart, h]

/-- Witness for C5 at the mockup-step state holding `bookSchema`. -/
theorem refine_schema_replaces_or_preserves_witness :
    (handleRegenerate mockupHomeState "add an author field"
        (FetchResult.success dupFieldSchema)).state.schema = some dupFieldSchema
    ∧ (handleRegenerate mockupHomeState "add an author field"
        FetchResult.httpError).state.schema = mockupHomeState.schema
    ∧ (handleRegenerate mockupHomeState "add an author field"
        FetchResult.reject).state.schema = mockupHomeState.schema :=
  refine_schema_replaces_or_preserves mockupHomeState bookSchema dupFieldSchema
    "add an author field" rfl

/-- C6: each wizard action sets `isGenerating` to true before its fetch
and resets it to false when the request completes, on success and on every
error path; each action issues exactly one request (and the refine /
generate-app actions issue none at all when no schema is stored). -/
theorem isGenerating_lifecycle (s : HomeState) (prompt feedback : String)
    (params : PromptParams) (r1 r2 : FetchResult SchemaDefinition)
    (r3 : FetchResult ValidationResult) (sch : SchemaDefinition)
    (h : s.schema = some sch) :
    (promptSubmitStart s).isGenerating = true
    ∧ (handlePromptSubmit s prompt params r1).state.isGenerating = false
    ∧ (handlePromptSubmit s prompt params r1).fetches = 1
    ∧ (regenerateStart s).isGenerating = true
    ∧ (handleRegenerate s feedback r2).state.isGenerating = false
    ∧ (handleRegenerate s feedback r2).fetches = 1
    ∧ (confirmStart s).isGenerating = true
    ∧ (handleConfirm s r3).state.isGenerating = false
    ∧ (handleConfirm s r3).fetches = 1
    ∧ (handleRegenerate { s with schema := none } feedback r2).fetches = 0
    ∧ (handleConfirm { s with schema := none } r3).fetches = 0 := by
  cases r1 <;> cases r2 <;> cases r3 <;>
    simp [promptSubmitStart, handlePromptSubmit, promptSubmitFinish,
      regenerateStart, handleRegenerate, regenerateFinish,
      confirmStart, handleConfirm, confirmFinish, h]

/-- Witness for C6 at the mockup-step state holding `bookSchema`. -/
theorem isGenerating_lifecycle_witness :
    (promptSubmitStart mockupHomeState).isGenerating = true
    ∧ (handleRegenerate mockupHomeState "tweak"
        FetchResult.reject).state.isGenerating = false := by
  have h := isGenerating_lifecycle mockupHomeState "a library app" "tweak"
    ⟨"Book", []⟩ FetchResult.reject FetchResult.reject FetchResult.reject
    bookSchema rfl
  exact ⟨h.1, h.2.2.2.2.1⟩

/-- C10: after a successful file-list load from the initial state, a
non-empty list auto-selects the first file and fetches its content (two
requests in total, the content shown on success), while an empty list
leaves no file selected and the viewer shows the placeholder. -/
theorem loadFiles_autoselect_first (f : FileInfo) (fs : List FileInfo)
    (content : String) (cr : FetchResult String) :
    (loadFiles initialFileBrowserState (FetchResult.success (f :: fs))
        (FetchResult.success content)).state.selectedFile = some f.path
    ∧ (loadFiles initialFileBrowserState (FetchResult.success (f :: fs))
        (FetchResult.success content)).state.fileContent = content
    ∧ (loadFiles initialFileBrowserState (FetchResult.success (f :: fs))
        (FetchResult.success content)).state.files = f :: fs
    ∧ (loadFiles initialFileBrowserState (FetchResult.success (f :: fs))
        (FetchResult.success content)).fetches = 2
    ∧ (loadFiles initialFileBrowserState (FetchResult.success []) cr).state.selectedFile
        = none
    ∧ rendersPlaceholder
        (loadFiles initialFileBrowserState (FetchResult.success []) cr).state = true :=
  ⟨rfl, rfl, rfl, rfl, rfl, rfl⟩

/-- C8: after a successful projects load, the stored list is sorted in
non-increasing order of `created_at` (`projectDescLe`) and is a
permutation of the list returned by the backend. -/
theorem projects_sorted_desc (s : ProjectsState) (ps : List Project) :
    List.Sorted projectDescLe
      (loadProjects s (FetchResult.success ⟨ps⟩)).state.projects
    ∧ List.Perm (loadProjects s (FetchResult.success ⟨ps⟩)).state.projects ps :=
  ⟨List.sorted_insertionSort projectDescLe ps,
   List.perm_insertionSort projectDescLe ps⟩

/-- C1 counterexample: a rejected file-list fetch in `FileBrowser.loadFiles`
and a non-2xx file-content fetch in `loadFileContent` each produce no alert
dialog at all (the failure is logged to the console, respectively shown as
inline text), refuting the claim that every failed frontend fetch surfaces
an alert. -/
theorem fileBrowser_failure_shows_no_alert :
    (loadFiles initialFileBrowserState FetchResult.reject FetchResult.reject).alerts = []
    ∧ (loadFiles initialFileBrowserState FetchResult.reject FetchResult.reject).fetches = 1
    ∧ (loadFileContent initialFileBrowserState "generated/api.py"
        FetchResult.httpError).alerts = []
    ∧ (loadFileContent initialFileBrowserState "generated/api.py"
        FetchResult.httpError).state.fileContent = "Error loading file content" :=
  ⟨rfl, rfl, rfl, rfl⟩

/-- C1 amended: on a rejected or non-2xx fetch, every frontend handler
except the two in `FileBrowser` shows exactly one alert dialog, and none of
them retries (each issues each request at most once); `FileBrowser.loadFiles`
shows no alert (console log only) and `loadFileContent` shows no alert,
displaying the inline text "Error loading file content" instead. -/
theorem alert_policy_amended
    (rFiles : FetchResult (List FileInfo)) (rContent : FetchResult String)
    (rSchema : FetchResult SchemaDefinition) (rApp : FetchResult ValidationResult)
    (rProjects : FetchResult ProjectsResponse) (rBlob : FetchResult String)
    (rDeploy : FetchResult DeployInstructions)
    (s : FileBrowserState) (hs : HomeState) (ts : ProjectsState)
    (filePath prompt feedback pid : String) (params : PromptParams)
    (result : ValidationResult) (sch : SchemaDefinition)
    (hContent : rContent.isFailure = true)
    (hSchema : rSchema.isFailure = true) (hApp : rApp.isFailure = true)
    (hProjects : rProjects.isFailure = true) (hBlob : rBlob.isFailure = true)
    (hDeploy : rDeploy.isFailure = true)
    (hsch : hs.schema = some sch) (hpid : hasProjectId result = true) :
    (loadFiles s rFiles rContent).alerts = []
    ∧ (loadFiles s rFiles rContent).fetches ≤ 2
    ∧ (loadFileContent s filePath rContent).alerts = []
    ∧ (loadFileContent s filePath rContent).fetches = 1
    ∧ (loadFileContent s filePath rContent).state.fileContent
        = "Error loading file content"
    ∧ (handlePromptSubmit hs prompt params rSchema).alerts =
        ["Failed to generate schema. Make sure the backend is running on port 8000."]
    ∧ (handlePromptSubmit hs prompt params rSchema).fetches = 1
    ∧ (handleRegenerate hs feedback rSchema).alerts =
        ["Failed to refine schema. Make sure the backend is running."]
    ∧ (handleRegenerate hs feedback rSchema).fetches = 1
    ∧ (handleConfirm hs rApp).alerts =
        ["Failed to generate application. Make sure the backend is running."]
    ∧ (handleConfirm hs rApp).fetches = 1
    ∧ (loadProjects ts rProjects).alerts =
        ["Failed to load projects. Make sure the backend is running."]
    ∧ (loadProjects ts rProjects).fetches = 1
    ∧ (projectsPageDownload pid rBlob).alerts = ["Failed to download project"]
    ∧ (projectsPageDeploy pid rDeploy).alerts = ["Failed to get deployment instructions"]
    ∧ (reportDownload result rBlob).alerts =
        ["Failed to download project. Make sure the backend is running."]
    ∧ (reportDeploy result rDeploy).alerts =
        ["Failed to get deployment instructions. Make sure the backend is running."] := by
  refine ⟨(loadFiles_no_alert s rFiles rContent).1,
    (loadFiles_no_alert s rFiles rContent).2,
    (loadFileContent_no_alert s filePath rContent).1,
    (loadFileContent_no_alert s filePath rContent).2,
    ?_, ?_, ?_, ?_, ?_, ?_, ?_, ?_, ?_, ?_, ?_, ?_, ?_⟩
  · rcases failure_cases hContent with rfl | rfl <;> rfl
  · rcases failure_cases hSchema with rfl | rfl <;> rfl
  · rcases failure_cases hSchema with rfl | rfl <;> rfl
  · rcases failure_cases hSchema with rfl | rfl <;>
      simp [handleRegenerate, regenerateFinish, regenerateStart, hsch]
  · rcases failure_cases hSchema with rfl | rfl <;>
      simp [handleRegenerate, regenerateFinish, regenerateStart, hsch]
  · rcases failure_cases hApp with rfl | rfl <;>
      simp [handleConfirm, confirmFinish, confirmStart, hsch]
  · rcases failure_cases hApp with rfl | rfl <;>
      simp [handleConfirm, confirmFinish, confirmStart, hsch]
  · rcases failure_cases hProjects with rfl | rfl <;> rfl
  · rcases failure_cases hProjects with rfl | rfl <;> rfl
  · rcases failure_cases hBlob with rfl | rfl <;> rfl
  · rcases failure_cases hDeploy with rfl | rfl <;> rfl
  · rcases failure_cases hBlob with rfl | rfl <;> simp [reportDownload, hpid]
  · rcases failure_cases hDeploy with rfl | rfl <;> simp [reportDeploy, hpid]

/-- Witness for the amended C1 at concrete failing fetches. -/
theorem alert_policy_amended_witness :
    (loadFiles initialFileBrowserState FetchResult.reject FetchResult.reject).alerts = []
    ∧ (handleRegenerate mockupHomeState "tweak" FetchResult.httpError).alerts =
        ["Failed to refine schema. Make sure the backend is running."] := by
  have h := alert_policy_amended FetchResult.reject FetchResult.reject
    FetchResult.httpError FetchResult.httpError FetchResult.reject
    FetchResult.reject FetchResult.httpError
    initialFileBrowserState mockupHomeState initialProjectsState
    "generated/api.py" "a library app" "tweak" "proj-123" ⟨"Book", []⟩
    sampleResult bookSchema rfl rfl rfl rfl rfl rfl rfl (by decide)
  exact ⟨h.1, h.2.2.2.2.2.2.2.1⟩

/-- C3 counterexample: `handleConfirm` accepts a generate-app response
body whose `projectId` is absent — it stores the result and advances to the
report step — and the report's download and deploy handlers then alert
"Project ID not found" without issuing any request, refuting the claim
that every accepted `ValidationResult` contains a `projectId`. -/
theorem missing_projectId_accepted :
    (handleConfirm mockupHomeState
        (FetchResult.success noIdResult)).state.validationResult = some noIdResult
    ∧ (handleConfirm mockupHomeState
        (FetchResult.success noIdResult)).state.currentStep = Step.report
    ∧ noIdResult.projectId = none
    ∧ reportDownload noIdResult (FetchResult.success "zip-bytes") =
        { state := (), alerts := ["Project ID not found"], fetches := 0 }
    ∧ reportDeploy noIdResult (FetchResult.success ⟨"railway", "render", "docker"⟩) =
        { state := (), alerts := ["Project ID not found"], fetches := 0 } :=
  ⟨rfl, rfl, rfl, rfl, rfl⟩

/-- C3 amended: `projectId` is optional in the `ValidationResult` the
frontend consumes; the frontend accepts a result without it (the report
step is still entered and the result stored), and the report's download and
deploy handlers guard on it: when `projectId` is missing or empty they
alert "Project ID not found" and issue no request, and when it is present
they issue their request. -/
theorem projectId_optional_guarded (result : ValidationResult)
    (rBlob : FetchResult String) (rDeploy : FetchResult DeployInstructions)
    (s : HomeState) (sch : SchemaDefinition) (h : s.schema = some sch) :
    (hasProjectId result = false →
        reportDownload result rBlob =
          { state := (), alerts := ["Project ID not found"], fetches := 0 }
        ∧ reportDeploy result rDeploy =
          { state := (), alerts := ["Project ID not found"], fetches := 0 })
    ∧ (hasProjectId result = true →
        (reportDownload result rBlob).fetches = 1
        ∧ (reportDeploy result rDeploy).fetches = 1)
    ∧ (handleConfirm s (FetchResult.success result)).state.validationResult
        = some result
    ∧ (handleConfirm s (FetchResult.success result)).state.currentStep
        = Step.report := by
  refine ⟨fun hid => ?_, fun hid => ?_, ?_, ?_⟩
  · constructor <;> simp [reportDownload, reportDeploy, hid]
  · constructor <;> (cases rBlob <;> cases rDeploy <;>
      simp [reportDownload, reportDeploy, hid])
  · simp [handleConfirm, confirmFinish, confirmStart, h]
  · simp [handleConfirm, confirmFinish, confirmStart, h]

/-- Witness for the amended C3 at a result carrying a `projectId`. -/
theorem projectId_optional_guarded_witness :
    (reportDownload sampleResult FetchResult.httpError).fetches = 1
    ∧ (reportDeploy sampleResult FetchResult.httpError).fetches = 1 :=
  (projectId_optional_guarded sampleResult FetchResult.httpError
      FetchResult.httpError mockupHomeState bookSchema rfl).2.1 (by decide)

end AgenticAI
